import Mathlib

/-!
Shallow embedding of the RoboVM hardware-fault-to-managed-exception
translation layer (vm/core/src/signal.c) and proofs about it.

Addresses are modelled as `Nat` (the null pointer is `0`).  The machine
context delivered by the OS is abstracted to the two register values the
code reads through `getPC` / `getFramePointer`; the frame pointer is
modelled as the chain of return addresses it references, since the only
use of it is as the predecessor link of the synthetic root frame handed
to stack capture.  External collaborators (allocation, pending-exception
retrieval, the raise entry point, signal registration) are modelled by
explicit oracles recorded in the environment or passed as parameters.
The handler is rendered as a pure function from its inputs to the list
of observable events it performs, in source order.
-/

namespace RoboVM

/-- Result of classifying a fault address, per the branch structure at
signal.c lines 127-133. -/
inductive FaultClassification where
  | NullPointerFault
  | StackOverflowFault
  | Unhandled
deriving DecidableEq, Repr

/-- Managed class references that appear in signal.c. -/
inductive ClassName where
  | java_lang_NullPointerException
  | java_lang_StackOverflowError
  | otherClass (idx : Nat)
deriving DecidableEq, Repr

/-- Values storable in an instance field: a plain long, or the
pointer-cast handle of a captured call stack (PTR_TO_LONG(callStack)). -/
inductive FieldVal where
  | long (v : Int)
  | callStackHandle (cs : List Nat)
deriving DecidableEq, Repr

/-- A managed object: its class and its instance fields (association
list keyed by field id, first binding wins). -/
structure Object where
  cls : ClassName
  fields : List (Nat × FieldVal)
deriving DecidableEq, Repr

end RoboVM

namespace RoboVM

/-- The cached field handle for java.lang.Throwable.stackState, resolved
once by rvmInitSignals and immutable afterwards (signal.c line 37/42). -/
def stackStateField : Nat := 0

/-- rvmSetLongInstanceFieldValue: store a value into an instance field.
Prepending realises overwrite semantics under first-binding lookup. -/
def setLongInstanceFieldValue (obj : Object) (fld : Nat) (v : FieldVal) : Object :=
  { obj with fields := (fld, v) :: obj.fields }

/-- Read an instance field (first binding wins). -/
def getLongInstanceFieldValue (obj : Object) (fld : Nat) : Option FieldVal :=
  obj.fields.lookup fld

/-- Per-thread state read by the handler: the stack lower bound
(env->currentThread->stackAddr) and the blocked-signal mask captured at
installation (env->currentThread->signalMask). -/
structure VMThread where
  stackAddr : Nat
  signalMask : List Nat
deriving DecidableEq, Repr

/-- The slice of the runtime environment the handler touches, with
oracles for the external calls it makes: rvmIsNonNativeFrame,
rvmAllocateObject (allocWorks) and rvmExceptionClear (pendingException). -/
structure Env where
  currentThread : VMThread
  nonNativeFrame : Bool
  pendingException : Option Object
  allocWorks : Bool
deriving DecidableEq, Repr

/-- The captured machine context, abstracted to the two values the code
extracts: the program counter and the frame-pointer register, the latter
modelled as the chain of return addresses it references. -/
structure MachineContext where
  pc : Nat
  fp : List Nat
deriving DecidableEq, Repr

/-- getPC (signal.c lines 107-119): per-platform program-counter read. -/
def getPC (ctx : MachineContext) : Nat := ctx.pc

/-- getFramePointer (signal.c lines 93-105): per-platform frame-pointer
read, abstracted to the frame chain it references. -/
def getFramePointer (ctx : MachineContext) : List Nat := ctx.fp

/-- The fakeFrame built at signal.c lines 140-142: a synthetic frame
whose predecessor is the captured frame pointer and whose return address
is the captured program counter. -/
structure SyntheticFrame where
  prev : List Nat
  returnAddress : Nat
deriving DecidableEq, Repr

/-- Modelled from the spec: rvmCaptureCallStack is not part of src/;
per the spec it captures a stack snapshot rooted at the given synthetic
frame, so the snapshot is the root frame's return address followed by
the chain its predecessor references (innermost first). -/
def captureCallStack (root : SyntheticFrame) : List Nat :=
  root.returnAddress :: root.prev

/-- An OS signal disposition: the custom handler or SIG_DFL. -/
inductive Disposition where
  | custom
  | dfl
deriving DecidableEq, Repr

/-- Observable events of one signalHandler invocation, in source order. -/
inductive Event where
  | classify (c : FaultClassification)
  | alloc (cls : ClassName) (result : Option Object)
  | exceptionClear (result : Option Object)
  | capture (root : SyntheticFrame) (cs : List Nat)
  | setField (target : Option Object) (fld : Nat) (v : FieldVal)
  | raiseEv (obj : Option Object)
  | setDisposition (sig : Nat) (d : Disposition)
  | kill (pid : Int) (sig : Nat)
deriving DecidableEq, Repr

/-- Fault classification as performed by the branch chain at signal.c
lines 127-133: a null fault address means NullPointerException; an
address with faultAddr < stackAddr && faultAddr >= stackAddr - guard
means StackOverflowError; anything else is left unclassified. -/
def classifyFault (guardSize stackAddr faultAddr : Nat) : FaultClassification :=
  if faultAddr = 0 then FaultClassification.NullPointerFault
  else if faultAddr < stackAddr ∧ stackAddr - guardSize ≤ faultAddr then
    FaultClassification.StackOverflowFault
  else FaultClassification.Unhandled

/-- Fault classification as worded by the spec: no faulting address
means null-pointer; an address in the half-open interval
[stackBase - guardSize, stackBase) means stack overflow; otherwise
unhandled. -/
def specClassification (guardSize stackAddr faultAddr : Nat) : FaultClassification :=
  if faultAddr = 0 then FaultClassification.NullPointerFault
  else if stackAddr - guardSize ≤ faultAddr ∧ faultAddr < stackAddr then
    FaultClassification.StackOverflowFault
  else FaultClassification.Unhandled

/-- The exception class mapped from a classification (exClass in the
source: NULL when unclassified). -/
def exClassOf : FaultClassification → Option ClassName
  | FaultClassification.NullPointerFault => some ClassName.java_lang_NullPointerException
  | FaultClassification.StackOverflowFault => some ClassName.java_lang_StackOverflowError
  | FaultClassification.Unhandled => none

/-- The fallback at signal.c lines 151-155: reset the triggering
signal's disposition to SIG_DFL and re-deliver it to the process group
(kill(0, signum)). -/
def redeliverTail (signum : Nat) : List Event :=
  [Event.setDisposition signum Disposition.dfl, Event.kill 0 signum]

/-- rvmAllocateObject(env, exClass): a fresh zero-fielded instance when
the allocator succeeds, none when it fails (oracle env.allocWorks). -/
def allocatedObject (env : Env) (k : ClassName) : Option Object :=
  if env.allocWorks then some { cls := k, fields := [] } else none

/-- The throwable the handler ends up with (signal.c lines 136-139): the
allocated object, or on allocation failure whatever rvmExceptionClear
returns, which is the environment's pending exception (possibly none). -/
def throwableOf (env : Env) (k : ClassName) : Option Object :=
  match allocatedObject env k with
  | some o => some o
  | none => env.pendingException

/-- The rvmExceptionClear call happens only on the allocation-failure
branch. -/
def clearEventsOf (env : Env) (k : ClassName) : List Event :=
  match allocatedObject env k with
  | some _ => []
  | none => [Event.exceptionClear env.pendingException]

/-- The classified branch of the handler (signal.c lines 135-148):
allocate, fall back to the pending exception, build the synthetic frame,
capture the call stack, store its handle into the stackState field,
raise.  `raiseReturns` models whether rvmRaiseException returns control;
when it does the execution continues into the fallback code below the
branch. -/
def classifiedPath (raiseReturns : Bool) (signum : Nat) (ctx : MachineContext)
    (env : Env) (k : ClassName) : List Event :=
  let fakeFrame : SyntheticFrame :=
    { prev := getFramePointer ctx, returnAddress := getPC ctx }
  let cs := captureCallStack fakeFrame
  let v := FieldVal.callStackHandle cs
  Event.alloc k (allocatedObject env k) ::
    (clearEventsOf env k ++
      Event.capture fakeFrame cs ::
      Event.setField (throwableOf env k) stackStateField v ::
      Event.raiseEv ((throwableOf env k).map
        (fun o => setLongInstanceFieldValue o stackStateField v)) ::
      (if raiseReturns then redeliverTail signum else []))

/-- signalHandler (signal.c lines 121-156) as the list of observable
events it performs.  rvmGetEnv may find no environment (env? = none);
with an environment, the native-frame guard and the classification
decide between the classified branch and the fallback. -/
def signalHandler (guardSize : Nat) (raiseReturns : Bool) (signum siAddr : Nat)
    (ctx : MachineContext) (env? : Option Env) : List Event :=
  match env? with
  | none => redeliverTail signum
  | some env =>
    if env.nonNativeFrame then
      let c := classifyFault guardSize env.currentThread.stackAddr siAddr
      match exClassOf c with
      | none => Event.classify c :: redeliverTail signum
      | some k => Event.classify c :: classifiedPath raiseReturns signum ctx env k
    else redeliverTail signum

/-- The object passed to rvmRaiseException, when a raise occurred. -/
def raisedObject (tr : List Event) : Option (Option Object) :=
  tr.findSome? (fun e => match e with | Event.raiseEv o => some o | _ => none)

def isKillEvent : Event → Bool
  | Event.kill _ _ => true
  | _ => false

def isRaiseEvent : Event → Bool
  | Event.raiseEv _ => true
  | _ => false

def isSetFieldEvent : Event → Bool
  | Event.setField _ _ _ => true
  | _ => false

def isAllocEvent : Event → Bool
  | Event.alloc _ _ => true
  | _ => false

/-- Number of kill (re-delivery) events in a trace. -/
def killCount (tr : List Event) : Nat := (tr.filter isKillEvent).length

/-- Whether the handler raised a managed exception during the trace. -/
def raisesException (tr : List Event) : Bool := tr.any isRaiseEvent

/-- The disposition of signal `sig` after the trace's setDisposition
events have been applied to an initial disposition. -/
def finalDisposition (d0 : Disposition) (tr : List Event) (sig : Nat) : Disposition :=
  tr.foldl (fun d e =>
    match e with
    | Event.setDisposition s disp => if s = sig then disp else d
    | _ => d) d0

/-- Internal errors raised during setup (rvmThrowInternalErrorErrno
wraps an OS error code). -/
inductive VMError where
  | internalError (code : Nat)
deriving DecidableEq, Repr

/-- Process-wide dispositions of the two fault signals the installer
registers handlers for. -/
structure SigDisp where
  sigsegv : Disposition
  sigbus : Disposition
deriving DecidableEq, Repr

/-- Oracle for the OS calls made by installSignalHandlers: each
sigaction either succeeds (none) or fails with an errno value; the
pthread_sigmask mask query either fails with an error code (inl) or
returns the thread's current blocked-signal mask (inr). -/
structure OSOracle where
  sigbusResult : Option Nat
  sigsegvResult : Option Nat
  maskResult : Sum Nat (List Nat)
deriving DecidableEq, Repr

/-- Outcome of one installSignalHandlers call: the resulting signal
dispositions, any internal error raised, the mask captured into
env->currentThread->signalMask, and the returned jboolean. -/
structure InstallOutcome where
  disp : SigDisp
  thrown : Option VMError
  capturedMask : Option (List Nat)
  success : Bool
deriving DecidableEq, Repr

/-- rvmTearDownSignals (signal.c lines 90-91): the body is empty, so it
leaves the signal dispositions unchanged. -/
def rvmTearDownSignals (d : SigDisp) : SigDisp := d

/-- installSignalHandlers (signal.c lines 47-77).  On the Darwin build
it first registers the SIGBUS handler, then (all builds) the SIGSEGV
handler, then queries the current blocked-signal mask into the thread.
Each failure raises an internal error with the OS error code, calls
rvmTearDownSignals, and returns FALSE. -/
def installSignalHandlers (darwin : Bool) (o : OSOracle) (d0 : SigDisp) : InstallOutcome :=
  let step1 : Sum (SigDisp × Nat) SigDisp :=
    if darwin then
      match o.sigbusResult with
      | some e => Sum.inl (d0, e)
      | none => Sum.inr { d0 with sigbus := Disposition.custom }
    else Sum.inr d0
  match step1 with
  | Sum.inl (d, e) =>
    { disp := rvmTearDownSignals d, thrown := some (VMError.internalError e),
      capturedMask := none, success := false }
  | Sum.inr d1 =>
    match o.sigsegvResult with
    | some e =>
      { disp := rvmTearDownSignals d1, thrown := some (VMError.internalError e),
        capturedMask := none, success := false }
    | none =>
      let d2 := { d1 with sigsegv := Disposition.custom }
      match o.maskResult with
      | Sum.inl e =>
        { disp := rvmTearDownSignals d2, thrown := some (VMError.internalError e),
          capturedMask := none, success := false }
      | Sum.inr m =>
        { disp := d2, thrown := none, capturedMask := some m, success := true }

/-- The OS error code of the first failing step of an install run, if
any (the code the raised internal error carries). -/
def firstInstallError (darwin : Bool) (o : OSOracle) : Option Nat :=
  match (if darwin then o.sigbusResult else none) with
  | some e => some e
  | none =>
    match o.sigsegvResult with
    | some e => some e
    | none =>
      match o.maskResult with
      | Sum.inl e => some e
      | Sum.inr _ => none

/-- The how-argument of pthread_sigmask. -/
inductive SigMaskHow where
  | block
  | unblock
  | setmask
deriving DecidableEq, Repr

/-- Success semantics of pthread_sigmask on the blocked set: SIG_SETMASK
replaces it wholesale, SIG_BLOCK unions, SIG_UNBLOCK subtracts. -/
def applySigMaskHow : SigMaskHow → List Nat → List Nat → List Nat
  | SigMaskHow.setmask, newMask, _ => newMask
  | SigMaskHow.block, newMask, cur => cur ++ newMask.filter (fun s => !(cur.contains s))
  | SigMaskHow.unblock, newMask, cur => cur.filter (fun s => !(newMask.contains s))

/-- A pthread_sigmask call: on OS failure the blocked set is unchanged
and an error code is returned; on success the set is updated per the
how-argument. -/
def pthreadSigmaskCall (osFails : Bool) (how : SigMaskHow) (newMask cur : List Nat) :
    List Nat × Option Nat :=
  if osFails then (cur, some 22) else (applySigMaskHow how newMask cur, none)

/-- rvmRestoreSignalMask (signal.c lines 86-88): calls pthread_sigmask
with SIG_SETMASK and the thread's stored mask, discards the returned
status, and returns nothing; the only observable result is the thread's
new blocked set. -/
def rvmRestoreSignalMask (osFails : Bool) (storedMask cur : List Nat) : List Nat :=
  (pthreadSigmaskCall osFails SigMaskHow.setmask storedMask cur).1

/-- The classifier written in the source (null check first, then
faultAddr < stackAddr && stackAddr - guard <= faultAddr) computes
exactly the classification worded in the spec (membership in the
half-open interval [stackBase - guardSize, stackBase)). -/
theorem classifyFault_eq_specClassification (g base addr : Nat) :
    classifyFault g base addr = specClassification g base addr := by
  unfold classifyFault specClassification
  by_cases h0 : addr = 0
  · simp [h0]
  · by_cases h1 : addr < base <;> by_cases h2 : base - g ≤ addr <;>
      simp [h0, h1, h2]

/-- C1: whenever a fault is delivered while a runtime environment exists
for the faulting thread and the current frame is managed, the handler's
first act is to classify the fault, and the classification agrees with
the spec's rule: no faulting address gives a null-pointer fault, an
address in [stackBase - guardSize, stackBase) gives a stack-overflow
fault, and anything else is unhandled. -/
theorem C1_classified_per_spec (g : Nat) (rr : Bool) (signum siAddr : Nat)
    (ctx : MachineContext) (env : Env) (h : env.nonNativeFrame = true) :
    (signalHandler g rr signum siAddr ctx (some env)).head? =
      some (Event.classify (specClassification g env.currentThread.stackAddr siAddr)) := by
  have hcs := classifyFault_eq_specClassification g env.currentThread.stackAddr siAddr
  cases hec : exClassOf (classifyFault g env.currentThread.stackAddr siAddr) <;>
    simp [signalHandler, h, hec, ← hcs]

/-- Witness for C1 at a concrete input: environment present, managed
frame, null fault address. -/
theorem C1_classified_per_spec_witness :
    ({ currentThread := { stackAddr := 16777216, signalMask := [] },
       nonNativeFrame := true, pendingException := none,
       allocWorks := true } : Env).nonNativeFrame = true ∧
    (signalHandler 65536 false 11 0 { pc := 77, fp := [5, 6] }
        (some { currentThread := { stackAddr := 16777216, signalMask := [] },
                nonNativeFrame := true, pendingException := none,
                allocWorks := true })).head? =
      some (Event.classify (specClassification 65536 16777216 0)) :=
  ⟨rfl, C1_classified_per_spec 65536 false 11 0 { pc := 77, fp := [5, 6] } _ rfl⟩

/-- C6 counterexample: with stack base 0x1000000 and guard size 0x10000
the guard region is [0xFF0000, 0x1000000), and the address 0x0FFFFF00 =
0xFFFFF00 lies far above the stack base, so the code classifies it as
Unhandled, not as a stack overflow as the claim states. -/
theorem C6_counterexample :
    classifyFault 0x10000 0x1000000 0x0FFFFF00 = FaultClassification.Unhandled ∧
    classifyFault 0x10000 0x1000000 0x0FFFFF00 ≠ FaultClassification.StackOverflowFault := by
  decide

/-- C6 amended: with stack base 0x1000000 and guard size 0x10000, and an
environment present with a managed current frame, address 0x0 classifies
as a null-pointer fault, address 0x0FFFF00 (which does lie in the guard
region) classifies as a stack overflow, and address 0x2000000 is
unhandled: the handler raises nothing there, re-delivers the signal
exactly once, and leaves the signal's disposition at the OS default. -/
theorem C6_scenario :
    classifyFault 0x10000 0x1000000 0x0 = FaultClassification.NullPointerFault ∧
    classifyFault 0x10000 0x1000000 0x0FFFF00 = FaultClassification.StackOverflowFault ∧
    classifyFault 0x10000 0x1000000 0x2000000 = FaultClassification.Unhandled ∧
    raisesException (signalHandler 0x10000 false 11 0x2000000 { pc := 77, fp := [5, 6] }
      (some { currentThread := { stackAddr := 0x1000000, signalMask := [] },
              nonNativeFrame := true, pendingException := none,
              allocWorks := true })) = false ∧
    killCount (signalHandler 0x10000 false 11 0x2000000 { pc := 77, fp := [5, 6] }
      (some { currentThread := { stackAddr := 0x1000000, signalMask := [] },
              nonNativeFrame := true, pendingException := none,
              allocWorks := true })) = 1 ∧
    finalDisposition Disposition.custom
      (signalHandler 0x10000 false 11 0x2000000 { pc := 77, fp := [5, 6] }
        (some { currentThread := { stackAddr := 0x1000000, signalMask := [] },
                nonNativeFrame := true, pendingException := none,
                allocWorks := true })) 11 = Disposition.dfl := by
  decide

/-- C8: rvmRestoreSignalMask performs a SIG_SETMASK call with the
thread's stored mask: when the OS call succeeds the thread's blocked set
becomes exactly the stored mask whatever it was before (full
replacement, not a merge), and when the OS call fails the function still
returns normally with the mask unchanged, surfacing no status. -/
theorem C8_restore_mask (stored cur : List Nat) :
    rvmRestoreSignalMask false stored cur = stored ∧
    rvmRestoreSignalMask true stored cur = cur :=
  ⟨rfl, rfl⟩

/-- Shared facts about the fallback tail: it raises nothing, contains
exactly one re-delivery, and leaves the triggering signal at SIG_DFL. -/
theorem redeliverTail_facts (signum : Nat) (d0 : Disposition) :
    raisesException (redeliverTail signum) = false ∧
    killCount (redeliverTail signum) = 1 ∧
    finalDisposition d0 (redeliverTail signum) signum = Disposition.dfl := by
  refine ⟨rfl, rfl, ?_⟩
  simp [redeliverTail, finalDisposition]

/-- C2: for a fault that is unclassified, or hits a native current
frame, or a thread with no runtime environment, the handler raises no
managed exception; the trace is some raise-free prefix followed by the
fallback that resets the signal's disposition to the OS default, the
signal is re-delivered exactly once, and the final disposition of the
triggering signal is the default, so the re-delivered signal cannot
re-enter the handler. -/
theorem C2_fallback (g : Nat) (rr : Bool) (signum siAddr : Nat) (ctx : MachineContext)
    (env? : Option Env) (d0 : Disposition)
    (h : env? = none ∨ ∃ env, env? = some env ∧
        (env.nonNativeFrame = false ∨
         classifyFault g env.currentThread.stackAddr siAddr = FaultClassification.Unhandled)) :
    raisesException (signalHandler g rr signum siAddr ctx env?) = false ∧
    killCount (signalHandler g rr signum siAddr ctx env?) = 1 ∧
    (∃ pre, signalHandler g rr signum siAddr ctx env? = pre ++ redeliverTail signum ∧
      killCount pre = 0) ∧
    finalDisposition d0 (signalHandler g rr signum siAddr ctx env?) signum =
      Disposition.dfl := by
  have base := redeliverTail_facts signum d0
  rcases h with rfl | ⟨env, rfl, h⟩
  · exact ⟨base.1, base.2.1, ⟨[], by simp [signalHandler], rfl⟩, base.2.2⟩
  · rcases h with h | h
    · have htr : signalHandler g rr signum siAddr ctx (some env) = redeliverTail signum := by
        simp [signalHandler, h]
      rw [htr]
      exact ⟨base.1, base.2.1, ⟨[], by simp, rfl⟩, base.2.2⟩
    · by_cases hn : env.nonNativeFrame
      · have htr : signalHandler g rr signum siAddr ctx (some env) =
            Event.classify FaultClassification.Unhandled :: redeliverTail signum := by
          simp [signalHandler, hn, h, exClassOf]
        rw [htr]
        refine ⟨?_, ?_, ⟨[Event.classify FaultClassification.Unhandled], rfl, rfl⟩, ?_⟩
        · simp [raisesException, isRaiseEvent, redeliverTail]
        · simp [killCount, isKillEvent, redeliverTail, List.filter]
        · simp [finalDisposition, redeliverTail]
      · have hn' : env.nonNativeFrame = false := by simpa using hn
        have htr : signalHandler g rr signum siAddr ctx (some env) = redeliverTail signum := by
          simp [signalHandler, hn']
        rw [htr]
        exact ⟨base.1, base.2.1, ⟨[], by simp, rfl⟩, base.2.2⟩

/-- Witness for C2 at a concrete input: an unclassified fault address
with an environment present and a managed frame. -/
theorem C2_fallback_witness :
    raisesException (signalHandler 65536 false 11 33554432 { pc := 77, fp := [5, 6] }
      (some { currentThread := { stackAddr := 16777216, signalMask := [] },
              nonNativeFrame := true, pendingException := none,
              allocWorks := true })) = false ∧
    killCount (signalHandler 65536 false 11 33554432 { pc := 77, fp := [5, 6] }
      (some { currentThread := { stackAddr := 16777216, signalMask := [] },
              nonNativeFrame := true, pendingException := none,
              allocWorks := true })) = 1 ∧
    (∃ pre, signalHandler 65536 false 11 33554432 { pc := 77, fp := [5, 6] }
        (some { currentThread := { stackAddr := 16777216, signalMask := [] },
                nonNativeFrame := true, pendingException := none,
                allocWorks := true }) = pre ++ redeliverTail 11 ∧ killCount pre = 0) ∧
    finalDisposition Disposition.custom
      (signalHandler 65536 false 11 33554432 { pc := 77, fp := [5, 6] }
        (some { currentThread := { stackAddr := 16777216, signalMask := [] },
                nonNativeFrame := true, pendingException := none,
                allocWorks := true })) 11 = Disposition.dfl :=
  C2_fallback 65536 false 11 33554432 { pc := 77, fp := [5, 6] } _ Disposition.custom
    (Or.inr ⟨_, rfl, Or.inr (by decide)⟩)

/-- C7: classification strictly precedes allocation: any allocation
event in a handler trace sits at index 1, right after the classification
event at index 0, whose result is not Unhandled; and when the fault
classifies as Unhandled no allocation event occurs at all. -/
theorem C7_classify_before_alloc (g : Nat) (rr : Bool) (signum siAddr : Nat)
    (ctx : MachineContext) (env? : Option Env) :
    (∀ k res, Event.alloc k res ∈ signalHandler g rr signum siAddr ctx env? →
      ∃ c, c ≠ FaultClassification.Unhandled ∧
        (signalHandler g rr signum siAddr ctx env?)[0]? = some (Event.classify c) ∧
        (signalHandler g rr signum siAddr ctx env?)[1]? = some (Event.alloc k res)) ∧
    (∀ env, env? = some env →
      classifyFault g env.currentThread.stackAddr siAddr = FaultClassification.Unhandled →
      ∀ k res, Event.alloc k res ∉ signalHandler g rr signum siAddr ctx env?) := by
  constructor
  · intro k res hmem
    cases env? with
    | none => simp [signalHandler, redeliverTail] at hmem
    | some env =>
      cases hn : env.nonNativeFrame with
      | false => simp [signalHandler, hn, redeliverTail] at hmem
      | true =>
        cases hc : classifyFault g env.currentThread.stackAddr siAddr with
        | Unhandled => simp [signalHandler, hn, hc, exClassOf, redeliverTail] at hmem
        | NullPointerFault =>
          refine ⟨FaultClassification.NullPointerFault, by simp, ?_, ?_⟩ <;>
            cases ha : env.allocWorks <;> cases rr <;>
              simp_all [signalHandler, hn, hc, exClassOf, classifiedPath, clearEventsOf,
                allocatedObject, redeliverTail]
        | StackOverflowFault =>
          refine ⟨FaultClassification.StackOverflowFault, by simp, ?_, ?_⟩ <;>
            cases ha : env.allocWorks <;> cases rr <;>
              simp_all [signalHandler, hn, hc, exClassOf, classifiedPath, clearEventsOf,
                allocatedObject, redeliverTail]
  · rintro env rfl hc k res hmem
    cases hn : env.nonNativeFrame <;>
      simp [signalHandler, hn, hc, exClassOf, redeliverTail] at hmem

/-- Witness for C7 at a concrete input: a null-address fault whose trace
does allocate, with the classification event in front of it. -/
theorem C7_classify_before_alloc_witness :
    ∃ c, c ≠ FaultClassification.Unhandled ∧
      (signalHandler 65536 false 11 0 { pc := 77, fp := [5, 6] }
        (some { currentThread := { stackAddr := 16777216, signalMask := [] },
                nonNativeFrame := true, pendingException := none,
                allocWorks := true }))[0]? = some (Event.classify c) ∧
      (signalHandler 65536 false 11 0 { pc := 77, fp := [5, 6] }
        (some { currentThread := { stackAddr := 16777216, signalMask := [] },
                nonNativeFrame := true, pendingException := none,
                allocWorks := true }))[1]? =
        some (Event.alloc ClassName.java_lang_NullPointerException
          (some { cls := ClassName.java_lang_NullPointerException, fields := [] })) :=
  (C7_classify_before_alloc 65536 false 11 0 { pc := 77, fp := [5, 6] }
    (some { currentThread := { stackAddr := 16777216, signalMask := [] },
            nonNativeFrame := true, pendingException := none,
            allocWorks := true })).1
    ClassName.java_lang_NullPointerException
    (some { cls := ClassName.java_lang_NullPointerException, fields := [] })
    (by decide)

/-- C3 counterexample: with a null fault address (classification
succeeds as null-pointer), a failing allocator and no pending exception
on the environment, the handler calls the raise entry point with a null
object: it does exit the classified path without a non-null exception
object, contrary to the claim. -/
theorem C3_counterexample :
    (signalHandler 65536 false 11 0 { pc := 77, fp := [5, 6] }
      (some { currentThread := { stackAddr := 16777216, signalMask := [] },
              nonNativeFrame := true, pendingException := none,
              allocWorks := false })).head? =
      some (Event.classify FaultClassification.NullPointerFault) ∧
    raisedObject (signalHandler 65536 false 11 0 { pc := 77, fp := [5, 6] }
      (some { currentThread := { stackAddr := 16777216, signalMask := [] },
              nonNativeFrame := true, pendingException := none,
              allocWorks := false })) = some none := by
  decide

/-- C3 amended: when classification succeeds and allocation fails, the
handler substitutes the environment's pending exception (with the fresh
call-stack handle stored into it) as the object it raises; the raised
object is non-null provided allocation succeeded or a pending exception
was present — with neither, the handler raises a null object. -/
theorem C3_substitutes_pending (g : Nat) (rr : Bool) (signum siAddr : Nat)
    (ctx : MachineContext) (env : Env) (k : ClassName)
    (h1 : env.nonNativeFrame = true)
    (h2 : exClassOf (classifyFault g env.currentThread.stackAddr siAddr) = some k) :
    (env.allocWorks = false →
      raisedObject (signalHandler g rr signum siAddr ctx (some env)) =
        some (env.pendingException.map (fun p =>
          setLongInstanceFieldValue p stackStateField
            (FieldVal.callStackHandle (getPC ctx :: getFramePointer ctx))))) ∧
    (env.allocWorks = true ∨ env.pendingException.isSome →
      ∃ o, raisedObject (signalHandler g rr signum siAddr ctx (some env)) =
        some (some o)) := by
  constructor
  · intro ha
    cases rr <;>
      simp [signalHandler, h1, h2, classifiedPath, clearEventsOf, allocatedObject, ha,
        throwableOf, raisedObject, redeliverTail, captureCallStack, getPC, getFramePointer]
  · intro h3
    cases ha : env.allocWorks with
    | true =>
      refine ⟨{ cls := k, fields := [(stackStateField,
          FieldVal.callStackHandle (getPC ctx :: getFramePointer ctx))] }, ?_⟩
      cases rr <;>
        simp [signalHandler, h1, h2, classifiedPath, clearEventsOf, allocatedObject, ha,
          throwableOf, raisedObject, redeliverTail, captureCallStack, getPC, getFramePointer,
          setLongInstanceFieldValue]
    | false =>
      rcases h3 with h3 | h3
      · exact absurd (ha ▸ h3) (by simp)
      · rcases Option.isSome_iff_exists.mp h3 with ⟨p, hp⟩
        refine ⟨setLongInstanceFieldValue p stackStateField
          (FieldVal.callStackHandle (getPC ctx :: getFramePointer ctx)), ?_⟩
        cases rr <;>
          simp [signalHandler, h1, h2, classifiedPath, clearEventsOf, allocatedObject, ha,
            throwableOf, raisedObject, redeliverTail, captureCallStack, getPC,
            getFramePointer, hp]

/-- Witness for C3's amended statement at a concrete input: allocation
fails and a pending exception is present; the handler raises the pending
object with the fresh call-stack handle installed. -/
theorem C3_substitutes_pending_witness :
    ((Env.mk (VMThread.mk 16777216 []) true
        (some (Object.mk (ClassName.otherClass 3) [(stackStateField, FieldVal.long 9)]))
        false).allocWorks = false →
      raisedObject (signalHandler 65536 false 11 0 (MachineContext.mk 77 [5, 6])
        (some (Env.mk (VMThread.mk 16777216 []) true
          (some (Object.mk (ClassName.otherClass 3) [(stackStateField, FieldVal.long 9)]))
          false))) =
        some ((Env.mk (VMThread.mk 16777216 []) true
            (some (Object.mk (ClassName.otherClass 3) [(stackStateField, FieldVal.long 9)]))
            false).pendingException.map
          (fun p => setLongInstanceFieldValue p stackStateField
            (FieldVal.callStackHandle
              (getPC (MachineContext.mk 77 [5, 6]) ::
                getFramePointer (MachineContext.mk 77 [5, 6])))))) ∧
    ((Env.mk (VMThread.mk 16777216 []) true
        (some (Object.mk (ClassName.otherClass 3) [(stackStateField, FieldVal.long 9)]))
        false).allocWorks = true ∨
      (Env.mk (VMThread.mk 16777216 []) true
        (some (Object.mk (ClassName.otherClass 3) [(stackStateField, FieldVal.long 9)]))
        false).pendingException.isSome →
      ∃ o, raisedObject (signalHandler 65536 false 11 0 (MachineContext.mk 77 [5, 6])
        (some (Env.mk (VMThread.mk 16777216 []) true
          (some (Object.mk (ClassName.otherClass 3) [(stackStateField, FieldVal.long 9)]))
          false))) = some (some o)) :=
  C3_substitutes_pending 65536 false 11 0 (MachineContext.mk 77 [5, 6]) _
    ClassName.java_lang_NullPointerException rfl (by decide)

/-- C4: a fault with no faulting address (null fault) delivered on a
managed frame with a working allocator produces a null-pointer
exception; the capture is rooted at the synthetic frame whose
predecessor is the captured frame pointer and whose return address is
the captured program counter, so the snapshot's innermost entry is the
captured program counter, and the raised object carries that snapshot's
handle in its stackState field. -/
theorem C4_null_fault_snapshot (g : Nat) (rr : Bool) (signum : Nat)
    (ctx : MachineContext) (env : Env)
    (h1 : env.nonNativeFrame = true) (h2 : env.allocWorks = true) :
    Event.capture (SyntheticFrame.mk (getFramePointer ctx) (getPC ctx))
        (captureCallStack (SyntheticFrame.mk (getFramePointer ctx) (getPC ctx))) ∈
      signalHandler g rr signum 0 ctx (some env) ∧
    (captureCallStack (SyntheticFrame.mk (getFramePointer ctx) (getPC ctx))).head? =
      some (getPC ctx) ∧
    raisedObject (signalHandler g rr signum 0 ctx (some env)) =
      some (some (Object.mk ClassName.java_lang_NullPointerException
        [(stackStateField,
          FieldVal.callStackHandle (getPC ctx :: getFramePointer ctx))])) := by
  have hc : classifyFault g env.currentThread.stackAddr 0 =
      FaultClassification.NullPointerFault := by
    simp [classifyFault]
  refine ⟨?_, rfl, ?_⟩ <;>
    cases rr <;>
      simp [signalHandler, h1, hc, exClassOf, classifiedPath, clearEventsOf,
        allocatedObject, h2, throwableOf, raisedObject, redeliverTail, captureCallStack,
        getPC, getFramePointer, setLongInstanceFieldValue]

/-- Witness for C4 at a concrete input. -/
theorem C4_null_fault_snapshot_witness :
    Event.capture
        (SyntheticFrame.mk (getFramePointer (MachineContext.mk 77 [5, 6]))
          (getPC (MachineContext.mk 77 [5, 6])))
        (captureCallStack
          (SyntheticFrame.mk (getFramePointer (MachineContext.mk 77 [5, 6]))
            (getPC (MachineContext.mk 77 [5, 6])))) ∈
      signalHandler 65536 false 11 0 (MachineContext.mk 77 [5, 6])
        (some (Env.mk (VMThread.mk 16777216 []) true none true)) ∧
    (captureCallStack
        (SyntheticFrame.mk (getFramePointer (MachineContext.mk 77 [5, 6]))
          (getPC (MachineContext.mk 77 [5, 6])))).head? =
      some (getPC (MachineContext.mk 77 [5, 6])) ∧
    raisedObject (signalHandler 65536 false 11 0 (MachineContext.mk 77 [5, 6])
        (some (Env.mk (VMThread.mk 16777216 []) true none true))) =
      some (some (Object.mk ClassName.java_lang_NullPointerException
        [(stackStateField,
          FieldVal.callStackHandle
            (getPC (MachineContext.mk 77 [5, 6]) ::
              getFramePointer (MachineContext.mk 77 [5, 6])))])) :=
  C4_null_fault_snapshot 65536 false 11 (MachineContext.mk 77 [5, 6]) _ rfl rfl

/-- C5 counterexample: on the Darwin build, when SIGBUS registration
succeeds and SIGSEGV registration then fails with error code 22, the
installer raises an internal error and returns failure — but the SIGBUS
handler installed earlier in the same call is still installed
afterwards, because rvmTearDownSignals has an empty body; the claim's
removal guarantee is false. -/
theorem C5_counterexample :
    (installSignalHandlers true (OSOracle.mk none (some 22) (Sum.inr []))
      (SigDisp.mk Disposition.dfl Disposition.dfl)).success = false ∧
    (installSignalHandlers true (OSOracle.mk none (some 22) (Sum.inr []))
      (SigDisp.mk Disposition.dfl Disposition.dfl)).thrown =
      some (VMError.internalError 22) ∧
    (installSignalHandlers true (OSOracle.mk none (some 22) (Sum.inr []))
      (SigDisp.mk Disposition.dfl Disposition.dfl)).disp.sigbus = Disposition.custom := by
  decide

/-- C5 amended: on any OS-level registration or mask-capture failure the
installer raises an internal error carrying the OS error code of the
first failing step and returns failure, and it invokes
rvmTearDownSignals — which is currently a no-op, so handlers already
installed during the call remain installed rather than being removed. -/
theorem C5_install_failure (darwin : Bool) (o : OSOracle) (d0 : SigDisp)
    (h : (firstInstallError darwin o).isSome) :
    (installSignalHandlers darwin o d0).success = false ∧
    (installSignalHandlers darwin o d0).thrown =
      (firstInstallError darwin o).map VMError.internalError ∧
    rvmTearDownSignals (installSignalHandlers darwin o d0).disp =
      (installSignalHandlers darwin o d0).disp := by
  refine ⟨?_, ?_, rfl⟩ <;>
    cases darwin <;>
      cases hb : o.sigbusResult <;> cases hs : o.sigsegvResult <;>
        cases hm : o.maskResult <;>
          simp_all [installSignalHandlers, firstInstallError, rvmTearDownSignals]

/-- Witness for C5's amended statement at the counterexample input. -/
theorem C5_install_failure_witness :
    (installSignalHandlers true (OSOracle.mk none (some 7) (Sum.inr [3]))
      (SigDisp.mk Disposition.dfl Disposition.dfl)).success = false ∧
    (installSignalHandlers true (OSOracle.mk none (some 7) (Sum.inr [3]))
      (SigDisp.mk Disposition.dfl Disposition.dfl)).thrown =
      (firstInstallError true (OSOracle.mk none (some 7) (Sum.inr [3]))).map
        VMError.internalError ∧
    rvmTearDownSignals (installSignalHandlers true (OSOracle.mk none (some 7) (Sum.inr [3]))
        (SigDisp.mk Disposition.dfl Disposition.dfl)).disp =
      (installSignalHandlers true (OSOracle.mk none (some 7) (Sum.inr [3]))
        (SigDisp.mk Disposition.dfl Disposition.dfl)).disp :=
  C5_install_failure true (OSOracle.mk none (some 7) (Sum.inr [3]))
    (SigDisp.mk Disposition.dfl Disposition.dfl) (by decide)

/-- C9: on the classified path the trace with a returning raise entry
point is exactly the trace with a diverging one — which ends at the
raise event — extended by the fallback: reset the signal's disposition
to the OS default and re-deliver it to the process group.  The
classified-and-raised state is terminal only because the raise call is
assumed not to return. -/
theorem C9_raise_returns_fallback (g : Nat) (signum siAddr : Nat) (ctx : MachineContext)
    (env : Env) (k : ClassName)
    (h1 : env.nonNativeFrame = true)
    (h2 : exClassOf (classifyFault g env.currentThread.stackAddr siAddr) = some k) :
    ∃ pre o,
      signalHandler g false signum siAddr ctx (some env) = pre ++ [Event.raiseEv o] ∧
      signalHandler g true signum siAddr ctx (some env) =
        (pre ++ [Event.raiseEv o]) ++
          [Event.setDisposition signum Disposition.dfl, Event.kill 0 signum] := by
  refine ⟨Event.classify (classifyFault g env.currentThread.stackAddr siAddr) ::
      Event.alloc k (allocatedObject env k) ::
      clearEventsOf env k ++
      [Event.capture (SyntheticFrame.mk (getFramePointer ctx) (getPC ctx))
          (captureCallStack (SyntheticFrame.mk (getFramePointer ctx) (getPC ctx))),
        Event.setField (throwableOf env k) stackStateField
          (FieldVal.callStackHandle
            (captureCallStack (SyntheticFrame.mk (getFramePointer ctx) (getPC ctx))))],
    (throwableOf env k).map (fun ob => setLongInstanceFieldValue ob stackStateField
      (FieldVal.callStackHandle
        (captureCallStack (SyntheticFrame.mk (getFramePointer ctx) (getPC ctx))))),
    ?_, ?_⟩ <;>
    simp [signalHandler, h1, h2, classifiedPath, redeliverTail, captureCallStack,
      getPC, getFramePointer]

/-- Witness for C9 at a concrete input. -/
theorem C9_raise_returns_fallback_witness :
    ∃ pre o,
      signalHandler 65536 false 11 0 (MachineContext.mk 77 [5, 6])
          (some (Env.mk (VMThread.mk 16777216 []) true none true)) =
        pre ++ [Event.raiseEv o] ∧
      signalHandler 65536 true 11 0 (MachineContext.mk 77 [5, 6])
          (some (Env.mk (VMThread.mk 16777216 []) true none true)) =
        (pre ++ [Event.raiseEv o]) ++
          [Event.setDisposition 11 Disposition.dfl, Event.kill 0 11] :=
  C9_raise_returns_fallback 65536 11 0 (MachineContext.mk 77 [5, 6])
    (Env.mk (VMThread.mk 16777216 []) true none true)
    ClassName.java_lang_NullPointerException rfl (by decide)

/-- C10: on the classified path the only field write in the whole trace
is the one storing the freshly captured call-stack handle into the
stackState field of the object about to be raised, and it happens
whatever object that is; the store makes the stackState field hold the
new handle — overwriting any value a substituted pending exception had
there — and leaves every other field unchanged. -/
theorem C10_single_field_write (g : Nat) (rr : Bool) (signum siAddr : Nat)
    (ctx : MachineContext) (env : Env) (k : ClassName)
    (h1 : env.nonNativeFrame = true)
    (h2 : exClassOf (classifyFault g env.currentThread.stackAddr siAddr) = some k) :
    (signalHandler g rr signum siAddr ctx (some env)).filter isSetFieldEvent =
      [Event.setField (throwableOf env k) stackStateField
        (FieldVal.callStackHandle (getPC ctx :: getFramePointer ctx))] ∧
    raisedObject (signalHandler g rr signum siAddr ctx (some env)) =
      some ((throwableOf env k).map (fun o =>
        setLongInstanceFieldValue o stackStateField
          (FieldVal.callStackHandle (getPC ctx :: getFramePointer ctx)))) ∧
    (∀ o : Object, getLongInstanceFieldValue
        (setLongInstanceFieldValue o stackStateField
          (FieldVal.callStackHandle (getPC ctx :: getFramePointer ctx)))
        stackStateField =
      some (FieldVal.callStackHandle (getPC ctx :: getFramePointer ctx))) ∧
    (∀ (o : Object) (f : Nat), f ≠ stackStateField →
      getLongInstanceFieldValue
          (setLongInstanceFieldValue o stackStateField
            (FieldVal.callStackHandle (getPC ctx :: getFramePointer ctx))) f =
        getLongInstanceFieldValue o f) := by
  refine ⟨?_, ?_, ?_, ?_⟩
  · cases ha : env.allocWorks <;> cases rr <;>
      simp [signalHandler, h1, h2, classifiedPath, clearEventsOf, allocatedObject, ha,
        throwableOf, redeliverTail, captureCallStack, getPC, getFramePointer,
        isSetFieldEvent, List.filter]
  · cases ha : env.allocWorks <;> cases rr <;>
      simp [signalHandler, h1, h2, classifiedPath, clearEventsOf, allocatedObject, ha,
        throwableOf, raisedObject, redeliverTail, captureCallStack, getPC, getFramePointer]
  · intro o
    simp [getLongInstanceFieldValue, setLongInstanceFieldValue, List.lookup]
  · intro o f hf
    have hb : (f == stackStateField) = false := by simpa using hf
    simp [getLongInstanceFieldValue, setLongInstanceFieldValue, List.lookup, hb]

/-- Witness for C10 at a concrete input: allocation fails and the
pending exception, which already holds an old stackState value, is
substituted; the single field write overwrites that value. -/
theorem C10_single_field_write_witness :
    (signalHandler 65536 false 11 0 (MachineContext.mk 77 [5, 6])
        (some (Env.mk (VMThread.mk 16777216 []) true
          (some (Object.mk (ClassName.otherClass 3) [(stackStateField, FieldVal.long 9)]))
          false))).filter isSetFieldEvent =
      [Event.setField
        (throwableOf (Env.mk (VMThread.mk 16777216 []) true
          (some (Object.mk (ClassName.otherClass 3) [(stackStateField, FieldVal.long 9)]))
          false) ClassName.java_lang_NullPointerException)
        stackStateField
        (FieldVal.callStackHandle
          (getPC (MachineContext.mk 77 [5, 6]) ::
            getFramePointer (MachineContext.mk 77 [5, 6])))] ∧
    raisedObject (signalHandler 65536 false 11 0 (MachineContext.mk 77 [5, 6])
        (some (Env.mk (VMThread.mk 16777216 []) true
          (some (Object.mk (ClassName.otherClass 3) [(stackStateField, FieldVal.long 9)]))
          false))) =
      some ((throwableOf (Env.mk (VMThread.mk 16777216 []) true
          (some (Object.mk (ClassName.otherClass 3) [(stackStateField, FieldVal.long 9)]))
          false) ClassName.java_lang_NullPointerException).map (fun o =>
        setLongInstanceFieldValue o stackStateField
          (FieldVal.callStackHandle
            (getPC (MachineContext.mk 77 [5, 6]) ::
              getFramePointer (MachineContext.mk 77 [5, 6]))))) ∧
    (∀ o : Object, getLongInstanceFieldValue
        (setLongInstanceFieldValue o stackStateField
          (FieldVal.callStackHandle
            (getPC (MachineContext.mk 77 [5, 6]) ::
              getFramePointer (MachineContext.mk 77 [5, 6]))))
        stackStateField =
      some (FieldVal.callStackHandle
        (getPC (MachineContext.mk 77 [5, 6]) ::
          getFramePointer (MachineContext.mk 77 [5, 6])))) ∧
    (∀ (o : Object) (f : Nat), f ≠ stackStateField →
      getLongInstanceFieldValue
          (setLongInstanceFieldValue o stackStateField
            (FieldVal.callStackHandle
              (getPC (MachineContext.mk 77 [5, 6]) ::
                getFramePointer (MachineContext.mk 77 [5, 6])))) f =
        getLongInstanceFieldValue o f) :=
  C10_single_field_write 65536 false 11 0 (MachineContext.mk 77 [5, 6])
    (Env.mk (VMThread.mk 16777216 []) true
      (some (Object.mk (ClassName.otherClass 3) [(stackStateField, FieldVal.long 9)]))
      false)
    ClassName.java_lang_NullPointerException rfl (by decide)

end RoboVM
